import Mathlib

/-!
Verification of the core analytical layer of the community dashboard
(src/dashboard.py): data loading/normalization, retention classification,
filtering, and metric calculation.

Modelling conventions:
* CSV cells are `String`s; `pd.read_csv` turns an empty cell into NaN,
  modelled here by `readCell : String → Option String` (none = NaN/null).
* Floating-point columns are modelled by `ℚ`; a value that can be NaN is
  modelled by `Option ℚ` with `none` playing the role of NaN
  (pandas `mean`/`max` of an empty series is NaN).
* `pd.to_numeric(col, errors="coerce")` is modelled by `parseNum`, which
  parses an optional sign, an integer part, and an optional fractional part,
  and returns `none` (NaN) on anything else.
* `.str.replace(",", "")` is modelled by `stripCommas` (dropping every comma).
  In dashboard.py the comma strip runs only when the column dtype is object;
  a pandas column is non-object only when every cell parses numerically, in
  which case no cell contains a comma and stripping is the identity, so the
  unconditional composition used here is observationally the same.
* `sort_values("date")` is modelled by `List.insertionSort` with the
  date order (the claims only depend on the output being an ascending-by-date
  rearrangement of the input).
-/

/-- Value of a list of decimal digit characters. -/
def digitsVal (ds : List Char) : ℕ :=
  ds.foldl (fun n c => 10 * n + (c.toNat - 48)) 0

/-- Model of `pd.to_numeric(_, errors="coerce")` on a single cell: optional
sign, decimal digits, optional fractional part; `none` models NaN. -/
def parseNum (s : String) : Option ℚ :=
  match s.toList with
  | [] => none
  | cs =>
    let signed : Bool × List Char :=
      match cs with
      | '-' :: t => (true, t)
      | '+' :: t => (false, t)
      | t => (false, t)
    let ip := signed.2.takeWhile Char.isDigit
    let rest := signed.2.dropWhile Char.isDigit
    let mag : Option ℚ :=
      match rest with
      | [] => if ip.isEmpty then none else some (digitsVal ip : ℚ)
      | '.' :: fp =>
        if fp.all Char.isDigit && !(ip.isEmpty && fp.isEmpty) then
          some ((digitsVal ip : ℚ) + (digitsVal fp : ℚ) / (10 : ℚ) ^ fp.length)
        else none
      | _ => none
    mag.map (fun m => if signed.1 then -m else m)

/-- Model of `.str.replace(",", "")`: remove every comma from the cell. -/
def stripCommas (s : String) : String :=
  String.mk (s.toList.filter (fun c => c != ','))

/-- Model of how `pd.read_csv` delivers a text cell: an empty cell is NaN. -/
def readCell (s : String) : Option String :=
  if s = "" then none else some s

/-- dashboard.py line 95:
`member_df["display_name"].fillna(member_df["name"]).fillna("Unknown Member")`,
applied to one row. -/
def resolveDisplayName (d n : Option String) : String :=
  (d.orElse (fun _ => n)).getD "Unknown Member"

/-- dashboard.py lines 98-102, `get_retention_group`. The column it is applied
to is a float column, so the argument is `ℚ`. -/
def get_retention_group (days : ℚ) : String :=
  if days ≤ 5 then "0-5 days"
  else if days ≤ 15 then "6-15 days"
  else if days ≤ 30 then "16-30 days"
  else "30+ days"

/-- A raw row of `member_cleaned_from_export.csv` as delivered by the reader:
the numeric columns arrive as text cells, the name columns as text cells
(`""` = empty cell = NaN). -/
structure RawMember where
  user_id : ℕ
  display_name : String
  name : String
  messages_posted : String
  days_active : String
  high_engagement : ℚ
deriving DecidableEq

/-- A normalized member record as produced by `load_data`. -/
structure MemberRecord where
  user_id : ℕ
  display_name : String
  messages_posted : ℚ
  days_active : ℚ
  high_engagement : ℚ
  retention_group : String
deriving DecidableEq

/-- A channel record (`channel_cleaned_from_export.csv`); `load_data` applies
no normalization to this table. -/
structure ChannelRecord where
  channel : ℕ
  messages_posted : ℚ
  total_membership : ℚ
deriving DecidableEq

/-- A workspace-day record (`workspace_daily_from_export.csv`) after date
parsing; dates are modelled by integers (only their order matters). -/
structure WorkspaceRecord where
  date : ℤ
  daily_active_people : ℚ
  messages_posted : ℚ
  engagement_ratio : ℚ
  total_enabled_members : ℚ
deriving DecidableEq

/-- dashboard.py lines 88-91 applied to one cell of `messages_posted`:
strip commas, coerce, `fillna(0)`. -/
def normalize_messages (s : String) : ℚ :=
  (parseNum (stripCommas s)).getD 0

/-- dashboard.py line 92 applied to one cell of `days_active`:
coerce (no comma stripping), `fillna(0)`. -/
def normalize_days (s : String) : ℚ :=
  (parseNum s).getD 0

/-- One row of the member-table normalization done in `load_data`
(dashboard.py lines 88-104). -/
def load_member_row (r : RawMember) : MemberRecord :=
  let da := normalize_days r.days_active
  { user_id := r.user_id
    display_name := resolveDisplayName (readCell r.display_name) (readCell r.name)
    messages_posted := normalize_messages r.messages_posted
    days_active := da
    high_engagement := r.high_engagement
    retention_group := get_retention_group da }

/-- The member-table part of `load_data`. -/
def load_member_table (rows : List RawMember) : List MemberRecord :=
  rows.map load_member_row

/-- Column view of `pd.to_numeric(col, errors="coerce")`. -/
def to_numeric_coerce (col : List String) : List (Option ℚ) :=
  col.map parseNum

/-- Column view of `.fillna(0)` on a float column. -/
def fillna_zero (col : List (Option ℚ)) : List (Option ℚ) :=
  col.map (fun x => some (x.getD 0))

/-- The full normalized `messages_posted` column of the member table
(dashboard.py lines 88-91): comma strip, then coercion, then `fillna(0)`. -/
def messages_posted_column (rows : List RawMember) : List (Option ℚ) :=
  fillna_zero (to_numeric_coerce ((rows.map (fun r => RawMember.messages_posted r)).map stripCommas))

/-- The full normalized `days_active` column of the member table
(dashboard.py line 92): coercion then `fillna(0)`, no comma strip. -/
def days_active_column (rows : List RawMember) : List (Option ℚ) :=
  fillna_zero (to_numeric_coerce (rows.map (fun r => RawMember.days_active r)))

/-- Mean of a pandas series: NaN (`none`) when the series is empty. -/
def pmean (xs : List ℚ) : Option ℚ :=
  if xs.length = 0 then none else some (xs.sum / (xs.length : ℚ))

/-- Max of a pandas series: NaN (`none`) when the series is empty. -/
def pmax (xs : List ℚ) : Option ℚ :=
  xs.max?

/-- The flat metrics record returned by `calculate_metrics`. Fields computed
by an unguarded pandas `mean`/`max` can be NaN and so are `Option ℚ`. -/
structure Metrics where
  total_members : ℕ
  total_member_messages : ℚ
  avg_messages_per_member : ℚ
  avg_days_active : Option ℚ
  high_engagement_count : ℚ
  pct_high_engagement : ℚ
  members_with_messages : ℕ
  pct_members_with_messages : ℚ
  total_channels : ℕ
  total_channel_messages : ℚ
  avg_messages_per_channel : ℚ
  total_channel_membership : ℚ
  peak_daily_active : Option ℚ
  peak_messages_per_day : Option ℚ
  avg_daily_active : Option ℚ
  avg_messages_per_day : Option ℚ
  total_messages_period : ℚ
  avg_engagement_ratio : Option ℚ
  latest_enabled_members : ℚ
deriving DecidableEq

/-- dashboard.py lines 116-162, `calculate_metrics`. The ternary guards of the
source (`... if total_members > 0 else 0`) become `if` terms; the unguarded
`mean()`/`max()` calls become `pmean`/`pmax`; `iloc[-1] if len > 0 else 0`
becomes a `getLast?` with default 0. `workspace_df` is accepted and unused,
as in the source. -/
def calculate_metrics (member_df : List MemberRecord) (channel_df : List ChannelRecord)
    (workspace_df filtered_workspace_df : List WorkspaceRecord) : Metrics :=
  let total_members := ((member_df.map (fun m => MemberRecord.user_id m)).dedup).length
  let total_member_messages := (member_df.map (fun m => MemberRecord.messages_posted m)).sum
  let high_engagement_count := (member_df.map (fun m => MemberRecord.high_engagement m)).sum
  let members_with_messages :=
    (member_df.filter (fun m => decide (0 < MemberRecord.messages_posted m))).length
  let total_channels := ((channel_df.map (fun c => ChannelRecord.channel c)).dedup).length
  let total_channel_messages := (channel_df.map (fun c => ChannelRecord.messages_posted c)).sum
  { total_members := total_members
    total_member_messages := total_member_messages
    avg_messages_per_member :=
      if total_members > 0 then total_member_messages / (total_members : ℚ) else 0
    avg_days_active := pmean (member_df.map (fun m => MemberRecord.days_active m))
    high_engagement_count := high_engagement_count
    pct_high_engagement :=
      if total_members > 0 then high_engagement_count / (total_members : ℚ) * 100 else 0
    members_with_messages := members_with_messages
    pct_members_with_messages :=
      if total_members > 0 then (members_with_messages : ℚ) / (total_members : ℚ) * 100 else 0
    total_channels := total_channels
    total_channel_messages := total_channel_messages
    avg_messages_per_channel :=
      if total_channels > 0 then total_channel_messages / (total_channels : ℚ) else 0
    total_channel_membership := (channel_df.map (fun c => ChannelRecord.total_membership c)).sum
    peak_daily_active :=
      pmax (filtered_workspace_df.map (fun w => WorkspaceRecord.daily_active_people w))
    peak_messages_per_day :=
      pmax (filtered_workspace_df.map (fun w => WorkspaceRecord.messages_posted w))
    avg_daily_active :=
      pmean (filtered_workspace_df.map (fun w => WorkspaceRecord.daily_active_people w))
    avg_messages_per_day :=
      pmean (filtered_workspace_df.map (fun w => WorkspaceRecord.messages_posted w))
    total_messages_period :=
      (filtered_workspace_df.map (fun w => WorkspaceRecord.messages_posted w)).sum
    avg_engagement_ratio :=
      pmean (filtered_workspace_df.map (fun w => WorkspaceRecord.engagement_ratio w))
    latest_enabled_members :=
      ((filtered_workspace_df.getLast?).map (fun w => WorkspaceRecord.total_enabled_members w)).getD 0 }

/-- The raw value delivered by the sidebar date widget: either a bare date or
a sequence of dates. -/
inductive DateInput where
  | single (d : ℤ)
  | seq (ds : List ℤ)
deriving DecidableEq

/-- dashboard.py lines 195-204: normalization of the widget value to a
`(start_date, end_date)` pair. -/
def normalize_date_range (dr : DateInput) (min_date max_date : ℤ) : ℤ × ℤ :=
  match dr with
  | .seq ds =>
    match ds with
    | [a, b] => (a, b)
    | [d] => (d, d)
    | _ => (min_date, max_date)
  | .single d => (d, d)

/-- Ascending-date order on workspace records. -/
def wsLE (a b : WorkspaceRecord) : Prop :=
  a.date ≤ b.date

instance : DecidableRel wsLE := fun a b => inferInstanceAs (Decidable (a.date ≤ b.date))

instance : IsTotal WorkspaceRecord wsLE := ⟨fun a b => Int.le_total a.date b.date⟩

instance : IsTrans WorkspaceRecord wsLE := ⟨fun _ _ _ h h' => le_trans h h'⟩

/-- dashboard.py lines 206-207: the inclusive date-range filter followed by
`sort_values("date")`. -/
def filtered_workspace (workspace_df : List WorkspaceRecord) (start_date end_date : ℤ) :
    List WorkspaceRecord :=
  List.insertionSort wsLE
    (workspace_df.filter
      (fun r => decide (start_date ≤ WorkspaceRecord.date r ∧ WorkspaceRecord.date r ≤ end_date)))

/-- dashboard.py line 213: the member message-threshold filter
`member_df[member_df["messages_posted"] >= min_messages]`; the slider value
is a non-negative integer. -/
def filtered_member (member_df : List MemberRecord) (min_messages : ℕ) : List MemberRecord :=
  member_df.filter (fun m => decide ((min_messages : ℚ) ≤ MemberRecord.messages_posted m))

/-- C2 The retention classifier, evaluated at any non-negative integer number
of days, yields exactly one of the four buckets, and the buckets partition the
non-negative integers with inclusive upper boundaries at 5, 15 and 30. -/
theorem retention_partition (n : ℕ) :
    (get_retention_group (n : ℚ) = "0-5 days" ↔ n ≤ 5) ∧
    (get_retention_group (n : ℚ) = "6-15 days" ↔ 6 ≤ n ∧ n ≤ 15) ∧
    (get_retention_group (n : ℚ) = "16-30 days" ↔ 16 ≤ n ∧ n ≤ 30) ∧
    (get_retention_group (n : ℚ) = "30+ days" ↔ 31 ≤ n) := by
  have c5 : ((n : ℚ) ≤ 5) ↔ n ≤ 5 := by exact_mod_cast Iff.rfl
  have c15 : ((n : ℚ) ≤ 15) ↔ n ≤ 15 := by exact_mod_cast Iff.rfl
  have c30 : ((n : ℚ) ≤ 30) ↔ n ≤ 30 := by exact_mod_cast Iff.rfl
  unfold get_retention_group
  by_cases h5 : (n : ℚ) ≤ 5
  · have hn : n ≤ 5 := c5.mp h5
    rw [if_pos h5]
    exact ⟨iff_of_true rfl hn, iff_of_false (by decide) (by omega),
      iff_of_false (by decide) (by omega), iff_of_false (by decide) (by omega)⟩
  · have hn : ¬ n ≤ 5 := fun h => h5 (c5.mpr h)
    rw [if_neg h5]
    by_cases h15 : (n : ℚ) ≤ 15
    · have hn15 : n ≤ 15 := c15.mp h15
      rw [if_pos h15]
      exact ⟨iff_of_false (by decide) (by omega), iff_of_true rfl ⟨by omega, hn15⟩,
        iff_of_false (by decide) (by omega), iff_of_false (by decide) (by omega)⟩
    · have hn15 : ¬ n ≤ 15 := fun h => h15 (c15.mpr h)
      rw [if_neg h15]
      by_cases h30 : (n : ℚ) ≤ 30
      · have hn30 : n ≤ 30 := c30.mp h30
        rw [if_pos h30]
        exact ⟨iff_of_false (by decide) (by omega), iff_of_false (by decide) (by omega),
          iff_of_true rfl ⟨by omega, hn30⟩, iff_of_false (by decide) (by omega)⟩
      · have hn30 : ¬ n ≤ 30 := fun h => h30 (c30.mpr h)
        rw [if_neg h30]
        exact ⟨iff_of_false (by decide) (by omega), iff_of_false (by decide) (by omega),
          iff_of_false (by decide) (by omega), iff_of_true rfl (by omega)⟩

/-- C10 The retention classifier is total on all rationals, and every negative
input lands in the lowest bucket. -/
theorem retention_negative (q : ℚ) (h : q < 0) : get_retention_group q = "0-5 days" := by
  unfold get_retention_group
  rw [if_pos (le_trans h.le (by norm_num))]

/-- C10 witness: the classifier at the concrete negative input -1. -/
theorem retention_negative_witness :
    (-1 : ℚ) < 0 ∧ get_retention_group (-1) = "0-5 days" :=
  ⟨by norm_num, retention_negative (-1) (by norm_num)⟩

/-- C1 counterexample: with an empty member dataset, `avg_days_active` is the
unguarded pandas mean of an empty column, which is NaN (modelled `none`), not
the defined value 0. -/
theorem metrics_empty_avg_days_active_nan :
    Metrics.avg_days_active (calculate_metrics [] [] [] []) = none ∧
    Metrics.avg_days_active (calculate_metrics [] [] [] []) ≠ some 0 := by decide

/-- C1 amended: over empty collections the division-guarded ratios
(`avg_messages_per_member`, `avg_messages_per_channel`, the percentage fields)
and the explicitly guarded `latest_enabled_members` are 0, while the unguarded
pandas means (`avg_days_active`, `avg_daily_active`, `avg_messages_per_day`,
`avg_engagement_ratio`) are NaN (`none`), not 0. -/
theorem metrics_empty_guards :
    (∀ (ch : List ChannelRecord) (ws fw : List WorkspaceRecord),
      (calculate_metrics [] ch ws fw).avg_messages_per_member = 0 ∧
      (calculate_metrics [] ch ws fw).pct_high_engagement = 0 ∧
      (calculate_metrics [] ch ws fw).pct_members_with_messages = 0 ∧
      (calculate_metrics [] ch ws fw).avg_days_active = none) ∧
    (∀ (mem : List MemberRecord) (ws fw : List WorkspaceRecord),
      (calculate_metrics mem [] ws fw).avg_messages_per_channel = 0) ∧
    (∀ (mem : List MemberRecord) (ch : List ChannelRecord) (ws : List WorkspaceRecord),
      (calculate_metrics mem ch ws []).avg_daily_active = none ∧
      (calculate_metrics mem ch ws []).avg_messages_per_day = none ∧
      Metrics.avg_engagement_ratio (calculate_metrics mem ch ws []) = none ∧
      (calculate_metrics mem ch ws []).latest_enabled_members = 0) :=
  ⟨fun _ _ _ => ⟨rfl, rfl, rfl, rfl⟩, fun _ _ _ => rfl, fun _ _ _ => ⟨rfl, rfl, rfl, rfl⟩⟩

/-- A raw member row whose numeric cells carry a grouping separator. -/
def rawComma : RawMember :=
  { user_id := 1, display_name := "a", name := "a",
    messages_posted := "1,234", days_active := "1,234", high_engagement := 0 }

/-- C3 counterexample: for the same comma-formatted cell "1,234", the
`messages_posted` column is stripped and coerces to 1234, but the
`days_active` column is coerced without stripping and collapses to 0 —
so not every comma-formatted member numeric field has its separators
stripped before coercion. -/
theorem days_active_comma_counterexample :
    MemberRecord.days_active (load_member_row rawComma) = 0 ∧
    MemberRecord.messages_posted (load_member_row rawComma) = 1234 ∧
    (0 : ℚ) ≠ 1234 := by decide

/-- C3 amended: the normalized `messages_posted` column (comma strip, then
coercion, then `fillna(0)`) and the normalized `days_active` column (coercion
then `fillna(0)`, without comma stripping) never contain a null value, and
they are exactly the fields of the loaded member records. -/
theorem member_numeric_normalization (rows : List RawMember) :
    (∀ x ∈ messages_posted_column rows, x.isSome = true) ∧
    (∀ x ∈ days_active_column rows, x.isSome = true) ∧
    messages_posted_column rows =
      (load_member_table rows).map (fun m => some (MemberRecord.messages_posted m)) ∧
    days_active_column rows =
      (load_member_table rows).map (fun m => some (MemberRecord.days_active m)) := by
  refine ⟨?_, ?_, ?_, ?_⟩
  · intro x hx
    simp only [messages_posted_column, fillna_zero, to_numeric_coerce, List.mem_map] at hx
    obtain ⟨y, -, rfl⟩ := hx
    rfl
  · intro x hx
    simp only [days_active_column, fillna_zero, to_numeric_coerce, List.mem_map] at hx
    obtain ⟨y, -, rfl⟩ := hx
    rfl
  · simp only [messages_posted_column, fillna_zero, to_numeric_coerce, load_member_table,
      List.map_map]
    rfl
  · simp only [days_active_column, fillna_zero, to_numeric_coerce, load_member_table,
      List.map_map]
    rfl

/-- C3 witness: the stripped-and-coerced value 1234 sits in the normalized
messages column of a concrete table and is non-null. -/
theorem member_numeric_normalization_witness :
    (some (1234 : ℚ)) ∈ messages_posted_column [rawComma] ∧
    (some (1234 : ℚ)).isSome = true :=
  ⟨by decide, (member_numeric_normalization [rawComma]).1 (some 1234) (by decide)⟩

/-- The row-level fillna chain on read cells agrees with the spec's
first-non-empty-wins chain, because the reader maps empty cells to null. -/
lemma resolveDisplayName_readCell (d n : String) :
    resolveDisplayName (readCell d) (readCell n) =
      (if d ≠ "" then d else if n ≠ "" then n else "Unknown Member") := by
  by_cases hd : d = "" <;> by_cases hn : n = "" <;>
    simp [resolveDisplayName, readCell, hd, hn, Option.orElse]

/-- C4 Every loaded member record's display name is the first non-empty value
of the chain supplied display name → supplied raw name → "Unknown Member",
and is in particular never the empty string. -/
theorem display_name_chain (rows : List RawMember) (m : MemberRecord)
    (hm : m ∈ load_member_table rows) :
    MemberRecord.display_name m ≠ "" ∧
    ∃ r ∈ rows, MemberRecord.display_name m =
      (if RawMember.display_name r ≠ "" then RawMember.display_name r
       else if RawMember.name r ≠ "" then RawMember.name r
       else "Unknown Member") := by
  simp only [load_member_table, List.mem_map] at hm
  obtain ⟨r, hr, rfl⟩ := hm
  have hval : MemberRecord.display_name (load_member_row r) =
      resolveDisplayName (readCell (RawMember.display_name r)) (readCell (RawMember.name r)) := rfl
  rw [hval, resolveDisplayName_readCell]
  refine ⟨?_, r, hr, rfl⟩
  by_cases hd : RawMember.display_name r = "" <;> by_cases hn : RawMember.name r = "" <;>
    simp [hd, hn]

/-- A raw member row with both name cells empty. -/
def rawNoNames : RawMember :=
  { user_id := 2, display_name := "", name := "",
    messages_posted := "5", days_active := "2", high_engagement := 1 }

/-- C4 witness: loading a concrete row with both name cells empty yields a
non-empty display name. -/
theorem display_name_chain_witness :
    load_member_row rawNoNames ∈ load_member_table [rawNoNames] ∧
    MemberRecord.display_name (load_member_row rawNoNames) ≠ "" :=
  ⟨by decide, (display_name_chain [rawNoNames] _ (by decide)).1⟩

/-- C5 The date-range filter keeps exactly the workspace records whose date
lies in the inclusive interval, returns them ascending by date, and yields the
empty dataset (not an error) when no record's date lies in the interval. -/
theorem date_filter_spec (ws : List WorkspaceRecord) (s e : ℤ) :
    (∀ r : WorkspaceRecord, r ∈ filtered_workspace ws s e ↔
        r ∈ ws ∧ s ≤ WorkspaceRecord.date r ∧ WorkspaceRecord.date r ≤ e) ∧
    (filtered_workspace ws s e).Pairwise wsLE ∧
    ((∀ r ∈ ws, ¬(s ≤ WorkspaceRecord.date r ∧ WorkspaceRecord.date r ≤ e)) →
      filtered_workspace ws s e = []) := by
  refine ⟨?_, ?_, ?_⟩
  · intro r
    unfold filtered_workspace
    rw [List.mem_insertionSort, List.mem_filter]
    simp
  · exact List.sorted_insertionSort wsLE _
  · intro h
    rw [List.eq_nil_iff_forall_not_mem]
    intro r hr
    unfold filtered_workspace at hr
    rw [List.mem_insertionSort, List.mem_filter] at hr
    exact h r hr.1 (by simpa using hr.2)

/-- A concrete workspace-day record dated 1. -/
def wsA : WorkspaceRecord :=
  { date := 1, daily_active_people := 3, messages_posted := 4,
    engagement_ratio := 1/2, total_enabled_members := 6 }

/-- C5 witness: filtering the one-record series to the disjoint interval
[2, 3] yields the empty dataset. -/
theorem date_filter_spec_witness : filtered_workspace [wsA] 2 3 = [] :=
  (date_filter_spec [wsA] 2 3).2.2 (by decide)

/-- C6 The widget-value normalization: a bare date or a one-element sequence
becomes (d, d); a two-element sequence becomes its two bounds; any other
sequence shape (length 0 or more than 2) falls back to the dataset's full
min/max range. -/
theorem date_range_normalization (d a b m M : ℤ) (ds : List ℤ) :
    normalize_date_range (DateInput.single d) m M = (d, d) ∧
    normalize_date_range (DateInput.seq [d]) m M = (d, d) ∧
    normalize_date_range (DateInput.seq [a, b]) m M = (a, b) ∧
    (ds.length = 0 ∨ 2 < ds.length → normalize_date_range (DateInput.seq ds) m M = (m, M)) := by
  refine ⟨rfl, rfl, rfl, ?_⟩
  intro h
  rcases ds with _ | ⟨x, _ | ⟨y, _ | ⟨z, t⟩⟩⟩
  · rfl
  · simp at h
  · simp at h
  · rfl

/-- C6 witness: a malformed three-element selection falls back to the
dataset's full min/max range. -/
theorem date_range_normalization_witness :
    normalize_date_range (DateInput.seq [1, 2, 3]) 0 9 = (0, 9) :=
  (date_range_normalization 0 0 0 0 9 [1, 2, 3]).2.2.2 (by decide)

/-- A raw member row whose messages cell holds a negative numeric literal. -/
def rawNeg : RawMember :=
  { user_id := 7, display_name := "x", name := "x",
    messages_posted := "-3", days_active := "1", high_engagement := 0 }

/-- C7 counterexample: a loadable source row with the negative literal "-3"
survives normalization as -3, and the min_messages = 0 filter then drops it,
so the zero threshold is not an identity on every loaded member dataset. -/
theorem min_messages_zero_counterexample :
    load_member_table [rawNeg] ≠ [] ∧
    filtered_member (load_member_table [rawNeg]) 0 = [] ∧
    ((filtered_member (load_member_table [rawNeg]) 0).map
        (fun m => MemberRecord.user_id m)).dedup ≠
      ((load_member_table [rawNeg]).map (fun m => MemberRecord.user_id m)).dedup := by decide

/-- C7 amended: on member datasets all of whose message counts are
non-negative (as in every real export), the min_messages = 0 filter is the
identity. -/
theorem min_messages_zero_identity (member_df : List MemberRecord)
    (h : ∀ m ∈ member_df, 0 ≤ MemberRecord.messages_posted m) :
    filtered_member member_df 0 = member_df := by
  unfold filtered_member
  rw [List.filter_eq_self]
  intro m hm
  simpa using h m hm

/-- C7 witness: the zero filter leaves a concrete loaded table unchanged. -/
theorem min_messages_zero_identity_witness :
    filtered_member (load_member_table [rawNoNames]) 0 = load_member_table [rawNoNames] :=
  min_messages_zero_identity _ (by decide)

/-- C8 counterexample: normalization does not clamp: the loadable source cell
"-3" yields the negative normalized messages_posted value -3. -/
theorem normalization_negative_counterexample :
    (load_member_table [rawNeg]).map (fun m => MemberRecord.messages_posted m) = [-3] ∧
    ¬ (0 : ℚ) ≤ -3 := by decide

/-- C8 amended: each normalized member numeric field is non-negative unless
the source itself supplies a negative numeric value, in which case the field
equals that parsed source value. -/
theorem normalized_nonneg_or_source_negative (rows : List RawMember) (m : MemberRecord)
    (hm : m ∈ load_member_table rows) :
    (0 ≤ MemberRecord.messages_posted m ∨
      (MemberRecord.messages_posted m < 0 ∧ ∃ r ∈ rows,
        parseNum (stripCommas (RawMember.messages_posted r)) =
          some (MemberRecord.messages_posted m))) ∧
    (0 ≤ MemberRecord.days_active m ∨
      (MemberRecord.days_active m < 0 ∧ ∃ r ∈ rows,
        parseNum (RawMember.days_active r) = some (MemberRecord.days_active m))) := by
  simp only [load_member_table, List.mem_map] at hm
  obtain ⟨r, hr, rfl⟩ := hm
  constructor
  · have hval : MemberRecord.messages_posted (load_member_row r) =
        (parseNum (stripCommas (RawMember.messages_posted r))).getD 0 := rfl
    rw [hval]
    rcases le_or_lt 0 ((parseNum (stripCommas (RawMember.messages_posted r))).getD 0) with hge | hlt
    · exact Or.inl hge
    · refine Or.inr ⟨hlt, r, hr, ?_⟩
      cases hp : parseNum (stripCommas (RawMember.messages_posted r)) with
      | none => rw [hp] at hlt; norm_num at hlt
      | some q => rfl
  · have hval : MemberRecord.days_active (load_member_row r) =
        (parseNum (RawMember.days_active r)).getD 0 := rfl
    rw [hval]
    rcases le_or_lt 0 ((parseNum (RawMember.days_active r)).getD 0) with hge | hlt
    · exact Or.inl hge
    · refine Or.inr ⟨hlt, r, hr, ?_⟩
      cases hp : parseNum (RawMember.days_active r) with
      | none => rw [hp] at hlt; norm_num at hlt
      | some q => rfl

/-- C8 witness: the amended statement evaluated at a concrete loaded row. -/
theorem normalized_nonneg_witness :
    0 ≤ MemberRecord.messages_posted (load_member_row rawNoNames) ∨
      (MemberRecord.messages_posted (load_member_row rawNoNames) < 0 ∧
        ∃ r ∈ [rawNoNames], parseNum (stripCommas (RawMember.messages_posted r)) =
          some (MemberRecord.messages_posted (load_member_row rawNoNames))) :=
  (normalized_nonneg_or_source_negative [rawNoNames] _ (by decide)).1

/-- In a list that is pairwise ascending by date, every element's date is at
most the last element's date. -/
lemma pairwise_wsLE_getLast :
    ∀ {l : List WorkspaceRecord}, l.Pairwise wsLE →
      ∀ (h : l ≠ []) (r : WorkspaceRecord), r ∈ l → wsLE r (l.getLast h) := by
  intro l
  induction l with
  | nil => intro _ h; exact absurd rfl h
  | cons a t ih =>
    intro hp h r hr
    rcases eq_or_ne t ([] : List WorkspaceRecord) with rfl | ht
    · have : r = a := by simpa using hr
      subst this
      show WorkspaceRecord.date r ≤ WorkspaceRecord.date ((([r] : List WorkspaceRecord)).getLast h)
      simp [List.getLast]
    · have hlast : (a :: t).getLast h = t.getLast ht := by
        cases t with
        | nil => exact absurd rfl ht
        | cons b u => rfl
      rw [hlast]
      rcases List.mem_cons.mp hr with rfl | hrt
      · exact (List.pairwise_cons.mp hp).1 _ (List.getLast_mem ht)
      · exact ih (List.pairwise_cons.mp hp).2 ht r hrt

/-- C9 `latest_enabled_members` is the `total_enabled_members` of the
chronologically last record of the filtered view (the last record of the
date-sorted view, whose date bounds every date in the view), and it is 0,
without erroring, when the view is empty. -/
theorem latest_enabled_members_spec (mem : List MemberRecord) (ch : List ChannelRecord)
    (ws : List WorkspaceRecord) (s e : ℤ) :
    (filtered_workspace ws s e = [] →
      (calculate_metrics mem ch ws (filtered_workspace ws s e)).latest_enabled_members = 0) ∧
    (∀ h : filtered_workspace ws s e ≠ [],
      (calculate_metrics mem ch ws (filtered_workspace ws s e)).latest_enabled_members =
        WorkspaceRecord.total_enabled_members ((filtered_workspace ws s e).getLast h) ∧
      ∀ r ∈ filtered_workspace ws s e,
        WorkspaceRecord.date r ≤
          WorkspaceRecord.date ((filtered_workspace ws s e).getLast h)) := by
  have hval : ∀ fw : List WorkspaceRecord,
      (calculate_metrics mem ch ws fw).latest_enabled_members =
        ((fw.getLast?).map (fun w => WorkspaceRecord.total_enabled_members w)).getD 0 :=
    fun fw => rfl
  constructor
  · intro h
    rw [hval, h]
    rfl
  · intro h
    refine ⟨?_, ?_⟩
    · rw [hval, List.getLast?_eq_getLast_of_ne_nil h]
      rfl
    · intro r hr
      exact pairwise_wsLE_getLast (List.sorted_insertionSort wsLE _) h r hr

/-- C9 witness: on the one-record series filtered to its own date, the metric
equals that record's `total_enabled_members`. -/
theorem latest_enabled_members_witness :
    (calculate_metrics [] [] [wsA] (filtered_workspace [wsA] 1 1)).latest_enabled_members =
      WorkspaceRecord.total_enabled_members ((filtered_workspace [wsA] 1 1).getLast (by decide)) :=
  ((latest_enabled_members_spec [] [] [wsA] 1 1).2 (by decide)).1
